import Mathlib

/-!
Verification of the input/display core of the solar-car vehicle controller.

The definitions below are a shallow embedding of the Rust source:

* `src/drivers/buttons/mod.rs` — the debounce engine (`ButtonState::update`).
  The Rust loop processes ten buttons through entirely independent array
  slots (index `i` for `states`/`raw_states`/`debounce_counters`, and a
  per-id slot of `toggle_states` for the three toggle buttons), so the
  embedding models the loop body for one button: `ButtonState` holds the
  slot `states[i]` (field `state`), `raw_states[i]` (field `rawState`),
  `debounce_counters[i]` (field `counter`) and, for toggle buttons, the
  button's `toggle_states` entry (field `toggle`).  `updateButton` is the
  body of the `for i in 0..10` loop of `ButtonState::update`.

* `src/drivers/display/ssd1322.rs` — framebuffer, `clear`, `flush`
  (modelled as the list of SPI writes it issues) and the bounds-checked
  `draw_iter` (machine integers become `Nat`/`Int`; the u8 shift in the
  packing is taken `% 256`).

* `src/drivers/display/display_write.rs` — the liveness gauges
  (`write_timeout`, `write_bms_timeout`) and the turn-signal rendering.
  The `f32` ratio arithmetic of the gauges is modelled exactly over `ℚ`
  (every branch the claims touch only needs the exact values 0 and 1,
  where f32 arithmetic is exact).

* `src/tasks/display.rs` — the screen `match` of `display_task`.
-/

namespace SolarVC

/-! ## Debounce engine (`src/drivers/buttons/mod.rs`) -/

/-- `ButtonId` from `buttons/mod.rs`. -/
inductive ButtonId
  | cruiseDown
  | cruiseUp
  | reverse
  | pushToTalk
  | horn
  | powerSave
  | rearview
  | leftTurn
  | rightTurn
  | lock
  deriving DecidableEq

/-- `ButtonEvent` from `buttons/mod.rs`. -/
inductive ButtonEvent
  | pressed (id : ButtonId)
  | released (id : ButtonId)
  | toggled (id : ButtonId) (newState : Bool)
  deriving DecidableEq

/-- The toggle-kind buttons, as matched in `ButtonState::update`
(`ButtonId::LeftTurn | ButtonId::RightTurn | ButtonId::Lock`). -/
def isToggle : ButtonId → Bool
  | .leftTurn => true
  | .rightTurn => true
  | .lock => true
  | _ => false

/-- One button's slot of the `ButtonState` arrays:
`states[i]`, `raw_states[i]`, `debounce_counters[i]`, and the button's
`toggle_states` entry. -/
structure ButtonState where
  state : Bool
  rawState : Bool
  counter : Nat
  toggle : Bool
  deriving DecidableEq

/-- `ButtonState::new()`: all slots `false`, counters `0`. -/
def initButtonState : ButtonState :=
  { state := false, rawState := false, counter := 0, toggle := false }

/-- The body of the `for i in 0..10` debounce loop of `ButtonState::update`,
for the button `id`, fed one raw (already inverted, active-low) sample.
Returns the updated slot and the event pushed for this button, if any. -/
def updateButton (id : ButtonId) (s : ButtonState) (raw : Bool) :
    ButtonState × Option ButtonEvent :=
  if raw ≠ s.rawState then
    ({ s with counter := 0, rawState := raw }, none)
  else if s.counter < 5 then
    if s.counter + 1 = 5 ∧ s.state ≠ raw then
      let s' : ButtonState := { s with counter := s.counter + 1, state := raw }
      if isToggle id then
        if raw then
          ({ s' with toggle := !s.toggle }, some (.toggled id (!s.toggle)))
        else (s', none)
      else if raw then (s', some (.pressed id))
      else (s', some (.released id))
    else ({ s with counter := s.counter + 1 }, none)
  else (s, none)

/-- The events emitted for button `id` over a sequence of polls. -/
def buttonEvents (id : ButtonId) (s : ButtonState) : List Bool → List ButtonEvent
  | [] => []
  | r :: rs =>
    (updateButton id s r).2.toList ++ buttonEvents id (updateButton id s r).1 rs

/-- The debounced state (`states[i]`) after each poll of a sequence. -/
def stableTrace (id : ButtonId) (s : ButtonState) : List Bool → List Bool
  | [] => []
  | r :: rs => (updateButton id s r).1.state :: stableTrace id (updateButton id s r).1 rs

/-- The button state after a sequence of polls. -/
def runButton (id : ButtonId) (s : ButtonState) : List Bool → ButtonState
  | [] => s
  | r :: rs => runButton id (updateButton id s r).1 rs

/-- Number of `false → true` transitions in a trace, given the value before it. -/
def risingEdges (prev : Bool) : List Bool → Nat
  | [] => 0
  | b :: bs => (if prev = false ∧ b = true then 1 else 0) + risingEdges b bs

/-- Number of `true → false` transitions in a trace, given the value before it. -/
def fallingEdges (prev : Bool) : List Bool → Nat
  | [] => 0
  | b :: bs => (if prev = true ∧ b = false then 1 else 0) + fallingEdges b bs

/-- Occurrences of one event in an event list. -/
def countEv (e0 : ButtonEvent) (es : List ButtonEvent) : Nat :=
  es.countP (fun e => decide (e = e0))

/-- Occurrences of any `toggled` event in an event list. -/
def countToggled (es : List ButtonEvent) : Nat :=
  es.countP (fun e => match e with | .toggled _ _ => true | _ => false)

/-! ### Debounce step lemmas -/

theorem countEv_append (e : ButtonEvent) (l₁ l₂ : List ButtonEvent) :
    countEv e (l₁ ++ l₂) = countEv e l₁ + countEv e l₂ :=
  List.countP_append _ _ _

theorem countToggled_append (l₁ l₂ : List ButtonEvent) :
    countToggled (l₁ ++ l₂) = countToggled l₁ + countToggled l₂ :=
  List.countP_append _ _ _

/-- For a regular button, the step emits `Pressed` exactly at a confirmed
rising edge of the debounced state. -/
theorem regular_pressed_iff (id : ButtonId) (hreg : isToggle id = false)
    (s : ButtonState) (raw : Bool) :
    (updateButton id s raw).2 = some (.pressed id) ↔
      s.state = false ∧ (updateButton id s raw).1.state = true := by
  obtain ⟨st, rw, c, tg⟩ := s
  cases raw <;> cases st <;> cases rw <;>
    by_cases h2 : c < 5 <;> by_cases h3 : c + 1 = 5 <;>
      simp [updateButton, hreg, h2, h3]

/-- For a regular button, the step emits `Released` exactly at a confirmed
falling edge of the debounced state. -/
theorem regular_released_iff (id : ButtonId) (hreg : isToggle id = false)
    (s : ButtonState) (raw : Bool) :
    (updateButton id s raw).2 = some (.released id) ↔
      s.state = true ∧ (updateButton id s raw).1.state = false := by
  obtain ⟨st, rw, c, tg⟩ := s
  cases raw <;> cases st <;> cases rw <;>
    by_cases h2 : c < 5 <;> by_cases h3 : c + 1 = 5 <;>
      simp [updateButton, hreg, h2, h3]

/-- Any event requires the 5th consecutive matching sample after a change,
with the debounced state actually flipping. -/
theorem event_needs_confirmation (id : ButtonId) (s : ButtonState) (raw : Bool) :
    (updateButton id s raw).2 ≠ none →
      raw = s.rawState ∧ s.counter = 4 ∧ s.state ≠ raw := by
  obtain ⟨st, rw, c, tg⟩ := s
  cases raw <;> cases st <;> cases rw <;>
    by_cases h2 : c < 5 <;> by_cases h3 : c + 1 = 5 <;>
      simp [updateButton, h2, h3] <;> omega

/-- A poll whose raw sample differs from the stored raw sample emits nothing. -/
theorem change_poll_no_event (id : ButtonId) (s : ButtonState) (raw : Bool)
    (h : raw ≠ s.rawState) : (updateButton id s raw).2 = none := by
  simp [updateButton, h]

/-- If the debounced state does not change, no event is emitted. -/
theorem no_edge_no_event (id : ButtonId) (s : ButtonState) (raw : Bool) :
    (updateButton id s raw).1.state = s.state → (updateButton id s raw).2 = none := by
  obtain ⟨st, rw, c, tg⟩ := s
  cases raw <;> cases st <;> cases rw <;>
    by_cases h2 : c < 5 <;> by_cases h3 : c + 1 = 5 <;>
      by_cases h4 : isToggle id = true <;>
        simp [updateButton, h2, h3, h4]

theorem countEv_step_pressed (id : ButtonId) (hreg : isToggle id = false)
    (s : ButtonState) (raw : Bool) :
    countEv (.pressed id) (updateButton id s raw).2.toList =
      (if s.state = false ∧ (updateButton id s raw).1.state = true then 1 else 0) := by
  obtain ⟨st, rw, c, tg⟩ := s
  cases raw <;> cases st <;> cases rw <;>
    by_cases h2 : c < 5 <;> by_cases h3 : c + 1 = 5 <;>
      simp [updateButton, countEv, hreg, h2, h3]

theorem countEv_step_released (id : ButtonId) (hreg : isToggle id = false)
    (s : ButtonState) (raw : Bool) :
    countEv (.released id) (updateButton id s raw).2.toList =
      (if s.state = true ∧ (updateButton id s raw).1.state = false then 1 else 0) := by
  obtain ⟨st, rw, c, tg⟩ := s
  cases raw <;> cases st <;> cases rw <;>
    by_cases h2 : c < 5 <;> by_cases h3 : c + 1 = 5 <;>
      simp [updateButton, countEv, hreg, h2, h3]

/-- Over any poll sequence, a regular button emits exactly one `Pressed`
per rising edge of the debounced-state trace. -/
theorem countEv_run_pressed (id : ButtonId) (hreg : isToggle id = false) :
    ∀ (samples : List Bool) (s : ButtonState),
      countEv (.pressed id) (buttonEvents id s samples) =
        risingEdges s.state (stableTrace id s samples) := by
  intro samples
  induction samples with
  | nil => intro s; simp [buttonEvents, stableTrace, risingEdges, countEv]
  | cons r rs ih =>
    intro s
    rw [buttonEvents, stableTrace, countEv_append, countEv_step_pressed id hreg,
      risingEdges, ih]

/-- Over any poll sequence, a regular button emits exactly one `Released`
per falling edge of the debounced-state trace. -/
theorem countEv_run_released (id : ButtonId) (hreg : isToggle id = false) :
    ∀ (samples : List Bool) (s : ButtonState),
      countEv (.released id) (buttonEvents id s samples) =
        fallingEdges s.state (stableTrace id s samples) := by
  intro samples
  induction samples with
  | nil => intro s; simp [buttonEvents, stableTrace, fallingEdges, countEv]
  | cons r rs ih =>
    intro s
    rw [buttonEvents, stableTrace, countEv_append, countEv_step_released id hreg,
      fallingEdges, ih]

/-! ### Claim theorems: debounce -/

/-- C1: For every sequence of raw samples, a Regular (non-toggle) button emits
exactly one `Pressed` per confirmed rising edge of its debounced state and
exactly one `Released` per confirmed falling edge; it emits no event except on
the 5th consecutive matching sample after a raw change with the debounced state
flipping; a poll on which the raw sample changes emits nothing; and while the
debounced state does not change no event fires. -/
theorem C1_regular_button_events (id : ButtonId) (hreg : isToggle id = false)
    (s : ButtonState) (raw : Bool) (samples : List Bool) :
    ((updateButton id s raw).2 = some (.pressed id) ↔
      s.state = false ∧ (updateButton id s raw).1.state = true) ∧
    ((updateButton id s raw).2 = some (.released id) ↔
      s.state = true ∧ (updateButton id s raw).1.state = false) ∧
    ((updateButton id s raw).2 ≠ none →
      raw = s.rawState ∧ s.counter = 4 ∧ s.state ≠ raw) ∧
    (raw ≠ s.rawState → (updateButton id s raw).2 = none) ∧
    ((updateButton id s raw).1.state = s.state → (updateButton id s raw).2 = none) ∧
    countEv (.pressed id) (buttonEvents id s samples) =
      risingEdges s.state (stableTrace id s samples) ∧
    countEv (.released id) (buttonEvents id s samples) =
      fallingEdges s.state (stableTrace id s samples) :=
  ⟨regular_pressed_iff id hreg s raw, regular_released_iff id hreg s raw,
    event_needs_confirmation id s raw, change_poll_no_event id s raw,
    no_edge_no_event id s raw, countEv_run_pressed id hreg samples s,
    countEv_run_released id hreg samples s⟩

/-- C1 witness: the characterization applied to the Horn button at the
confirming poll of a held press. -/
theorem C1_regular_button_events_witness :
    isToggle .horn = false ∧
    (((updateButton .horn ⟨false, true, 4, false⟩ true).2 = some (.pressed .horn) ↔
      (⟨false, true, 4, false⟩ : ButtonState).state = false ∧
        (updateButton .horn ⟨false, true, 4, false⟩ true).1.state = true) ∧
    ((updateButton .horn ⟨false, true, 4, false⟩ true).2 = some (.released .horn) ↔
      (⟨false, true, 4, false⟩ : ButtonState).state = true ∧
        (updateButton .horn ⟨false, true, 4, false⟩ true).1.state = false) ∧
    ((updateButton .horn ⟨false, true, 4, false⟩ true).2 ≠ none →
      true = (⟨false, true, 4, false⟩ : ButtonState).rawState ∧
        (⟨false, true, 4, false⟩ : ButtonState).counter = 4 ∧
        (⟨false, true, 4, false⟩ : ButtonState).state ≠ true) ∧
    (true ≠ (⟨false, true, 4, false⟩ : ButtonState).rawState →
      (updateButton .horn ⟨false, true, 4, false⟩ true).2 = none) ∧
    ((updateButton .horn ⟨false, true, 4, false⟩ true).1.state =
        (⟨false, true, 4, false⟩ : ButtonState).state →
      (updateButton .horn ⟨false, true, 4, false⟩ true).2 = none) ∧
    countEv (.pressed .horn) (buttonEvents .horn ⟨false, true, 4, false⟩ [true, true]) =
      risingEdges (⟨false, true, 4, false⟩ : ButtonState).state
        (stableTrace .horn ⟨false, true, 4, false⟩ [true, true]) ∧
    countEv (.released .horn) (buttonEvents .horn ⟨false, true, 4, false⟩ [true, true]) =
      fallingEdges (⟨false, true, 4, false⟩ : ButtonState).state
        (stableTrace .horn ⟨false, true, 4, false⟩ [true, true])) :=
  ⟨by decide, C1_regular_button_events .horn (by decide) ⟨false, true, 4, false⟩ true [true, true]⟩

/-- C2 counterexample: from the initial state, ten consecutive `true`
samples on the Regular button `CruiseDown` produce no event during the first
five polls — the single `Pressed` arrives on the 6th poll, not the 5th. -/
theorem C2_counterexample :
    buttonEvents .cruiseDown initButtonState (List.replicate 5 true) = [] ∧
    buttonEvents .cruiseDown initButtonState (List.replicate 6 true) =
      [.pressed .cruiseDown] ∧
    buttonEvents .cruiseDown initButtonState (List.replicate 10 true) =
      [.pressed .cruiseDown] := by
  decide

/-- C2 (amended): feeding `raw = true` on 10 consecutive polls from the
initial state produces exactly one `Pressed`, emitted on the 6th poll, and no
event on polls 1–5 or 7–10. -/
theorem C2_pressed_on_sixth_poll :
    buttonEvents .cruiseDown initButtonState (List.replicate 5 true) = [] ∧
    buttonEvents .cruiseDown initButtonState (List.replicate 6 true) =
      [.pressed .cruiseDown] ∧
    buttonEvents .cruiseDown initButtonState (List.replicate 7 true) =
      [.pressed .cruiseDown] ∧
    buttonEvents .cruiseDown initButtonState (List.replicate 8 true) =
      [.pressed .cruiseDown] ∧
    buttonEvents .cruiseDown initButtonState (List.replicate 9 true) =
      [.pressed .cruiseDown] ∧
    buttonEvents .cruiseDown initButtonState (List.replicate 10 true) =
      [.pressed .cruiseDown] := by
  decide

/-! ### Toggle-button lemmas -/

/-- For a toggle button, the step emits `Toggled id b` exactly at a confirmed
press edge, with `b` the freshly flipped toggle value. -/
theorem toggle_toggled_iff (id : ButtonId) (htog : isToggle id = true)
    (s : ButtonState) (raw : Bool) (b : Bool) :
    (updateButton id s raw).2 = some (.toggled id b) ↔
      s.state = false ∧ (updateButton id s raw).1.state = true ∧ b = !s.toggle := by
  obtain ⟨st, rw, c, tg⟩ := s
  cases raw <;> cases st <;> cases rw <;>
    by_cases h2 : c < 5 <;> by_cases h3 : c + 1 = 5 <;>
      simp [updateButton, htog, h2, h3, eq_comm]

/-- A toggle button's persisted value flips exactly on a confirmed press edge. -/
theorem toggle_flip_iff (id : ButtonId) (htog : isToggle id = true)
    (s : ButtonState) (raw : Bool) :
    (updateButton id s raw).1.toggle =
      (if s.state = false ∧ (updateButton id s raw).1.state = true
        then !s.toggle else s.toggle) := by
  obtain ⟨st, rw, c, tg⟩ := s
  cases raw <;> cases st <;> cases rw <;>
    by_cases h2 : c < 5 <;> by_cases h3 : c + 1 = 5 <;>
      simp [updateButton, htog, h2, h3]

/-- A confirmed release edge of a toggle button emits nothing and leaves the
persisted toggle value unchanged. -/
theorem toggle_release_edge (id : ButtonId) (htog : isToggle id = true)
    (s : ButtonState) (raw : Bool) :
    s.state = true ∧ (updateButton id s raw).1.state = false →
      (updateButton id s raw).2 = none ∧
      (updateButton id s raw).1.toggle = s.toggle := by
  obtain ⟨st, rw, c, tg⟩ := s
  cases raw <;> cases st <;> cases rw <;>
    by_cases h2 : c < 5 <;> by_cases h3 : c + 1 = 5 <;>
      simp [updateButton, htog, h2, h3]

theorem countToggled_step (id : ButtonId) (htog : isToggle id = true)
    (s : ButtonState) (raw : Bool) :
    countToggled (updateButton id s raw).2.toList =
      (if s.state = false ∧ (updateButton id s raw).1.state = true then 1 else 0) := by
  obtain ⟨st, rw, c, tg⟩ := s
  cases raw <;> cases st <;> cases rw <;>
    by_cases h2 : c < 5 <;> by_cases h3 : c + 1 = 5 <;>
      simp [updateButton, countToggled, htog, h2, h3]

/-- Over any poll sequence, a toggle button emits exactly one `Toggled` event
per rising edge of the debounced-state trace. -/
theorem countToggled_run (id : ButtonId) (htog : isToggle id = true) :
    ∀ (samples : List Bool) (s : ButtonState),
      countToggled (buttonEvents id s samples) =
        risingEdges s.state (stableTrace id s samples) := by
  intro samples
  induction samples with
  | nil => intro s; simp [buttonEvents, stableTrace, risingEdges, countToggled]
  | cons r rs ih =>
    intro s
    rw [buttonEvents, stableTrace, countToggled_append, countToggled_step id htog,
      risingEdges, ih]

/-- C3 counterexample: from the initial all-false state, 5 consecutive `false`
samples followed by 5 consecutive `true` samples on the toggle button
`LeftTurn` yield no event at all (the press is only confirmed on the 6th
`true` sample), refuting the claim's "yields `Toggled(id, true)` exactly
once" for that input. -/
theorem C3_counterexample :
    buttonEvents .leftTurn initButtonState
      (List.replicate 5 false ++ List.replicate 5 true) = [] := by
  decide

/-- C3 (amended): a toggle button flips its persisted entry exactly once per
confirmed press edge and emits `Toggled(id, newValue)` carrying the new value;
a confirmed release edge neither changes the toggle state nor emits an event;
and from the initial all-false state, 5 consecutive `false` samples followed by
6 consecutive `true` samples yield `Toggled(id, true)` exactly once. -/
theorem C3_toggle_button_events (id : ButtonId) (htog : isToggle id = true)
    (s : ButtonState) (raw : Bool) (b : Bool) (samples : List Bool) :
    ((updateButton id s raw).2 = some (.toggled id b) ↔
      s.state = false ∧ (updateButton id s raw).1.state = true ∧ b = !s.toggle) ∧
    ((updateButton id s raw).1.toggle =
      (if s.state = false ∧ (updateButton id s raw).1.state = true
        then !s.toggle else s.toggle)) ∧
    (s.state = true ∧ (updateButton id s raw).1.state = false →
      (updateButton id s raw).2 = none ∧
      (updateButton id s raw).1.toggle = s.toggle) ∧
    countToggled (buttonEvents id s samples) =
      risingEdges s.state (stableTrace id s samples) ∧
    buttonEvents .leftTurn initButtonState
      (List.replicate 5 false ++ List.replicate 6 true) =
      [.toggled .leftTurn true] :=
  ⟨toggle_toggled_iff id htog s raw b, toggle_flip_iff id htog s raw,
    toggle_release_edge id htog s raw, countToggled_run id htog samples s,
    by decide⟩

/-- C3 witness: the toggle characterization applied to `LeftTurn` at the
confirming poll of a held press. -/
theorem C3_toggle_button_events_witness :
    isToggle .leftTurn = true ∧
    (((updateButton .leftTurn ⟨false, true, 4, false⟩ true).2 =
        some (.toggled .leftTurn true) ↔
      (⟨false, true, 4, false⟩ : ButtonState).state = false ∧
        (updateButton .leftTurn ⟨false, true, 4, false⟩ true).1.state = true ∧
        true = !(⟨false, true, 4, false⟩ : ButtonState).toggle) ∧
    ((updateButton .leftTurn ⟨false, true, 4, false⟩ true).1.toggle =
      (if (⟨false, true, 4, false⟩ : ButtonState).state = false ∧
          (updateButton .leftTurn ⟨false, true, 4, false⟩ true).1.state = true
        then !(⟨false, true, 4, false⟩ : ButtonState).toggle
        else (⟨false, true, 4, false⟩ : ButtonState).toggle)) ∧
    ((⟨false, true, 4, false⟩ : ButtonState).state = true ∧
        (updateButton .leftTurn ⟨false, true, 4, false⟩ true).1.state = false →
      (updateButton .leftTurn ⟨false, true, 4, false⟩ true).2 = none ∧
      (updateButton .leftTurn ⟨false, true, 4, false⟩ true).1.toggle =
        (⟨false, true, 4, false⟩ : ButtonState).toggle) ∧
    countToggled (buttonEvents .leftTurn ⟨false, true, 4, false⟩ [true, false]) =
      risingEdges (⟨false, true, 4, false⟩ : ButtonState).state
        (stableTrace .leftTurn ⟨false, true, 4, false⟩ [true, false]) ∧
    buttonEvents .leftTurn initButtonState
      (List.replicate 5 false ++ List.replicate 6 true) =
      [.toggled .leftTurn true]) :=
  ⟨by decide, C3_toggle_button_events .leftTurn (by decide)
    ⟨false, true, 4, false⟩ true true [true, false]⟩

/-! ## Display driver (`src/drivers/display/ssd1322.rs`) -/

def DISPLAY_WIDTH : Nat := 256
def DISPLAY_HEIGHT : Nat := 64
def DISPLAY_BUFFER_SIZE : Nat := DISPLAY_WIDTH * DISPLAY_HEIGHT

def CMD_SET_COLUMN_ADDR : Nat := 0x15
def CMD_SET_ROW_ADDR : Nat := 0x75
def CMD_WRITE_RAM : Nat := 0x5C
def MIN_SEG : Nat := 0x1C
def MAX_SEG : Nat := 0x5B

/-- The framebuffer `[u8; DISPLAY_BUFFER_SIZE]`, as a map from linear index
`x + y * DISPLAY_WIDTH` to the cell value; only indices below
`DISPLAY_BUFFER_SIZE` are ever read or written by the driver. -/
def Framebuffer : Type := Nat → Nat

/-- `embedded_graphics::pixelcolor::Gray4`: a 4-bit grayscale intensity
(the crate stores the masked 4-bit raw value; `luma()` returns it). -/
structure Gray4 where
  luma : Fin 16
  deriving DecidableEq

/-- One `Pixel(coord, color)` item fed to `draw_iter` (coordinates are `i32`). -/
structure GrayPixel where
  x : Int
  y : Int
  color : Gray4

/-- `self.framebuffer[x + y * DISPLAY_WIDTH] = v`. -/
def setPixelRaw (fb : Framebuffer) (x y : Nat) (v : Nat) : Framebuffer :=
  fun i => if i = x + y * DISPLAY_WIDTH then v else fb i

/-- The loop body of `Ssd1322Display::draw_iter`: bounds-check the `i32`
coordinates, then store the color's luma at the linear index. -/
def drawPixelStep (fb : Framebuffer) (p : GrayPixel) : Framebuffer :=
  if 0 ≤ p.x ∧ p.x < (DISPLAY_WIDTH : Int) ∧ 0 ≤ p.y ∧ p.y < (DISPLAY_HEIGHT : Int) then
    setPixelRaw fb p.x.toNat p.y.toNat p.color.luma.val
  else fb

/-- The framebuffer after `draw_iter` has consumed a pixel iterator. -/
def drawAll (fb : Framebuffer) (ps : List GrayPixel) : Framebuffer :=
  ps.foldl drawPixelStep fb

/-- `type Error = core::convert::Infallible`: no inhabitants. -/
inductive DrawError : Type

/-- `Ssd1322Display::draw_iter`: always returns `Ok(())` with the updated
framebuffer (the error type is uninhabited). -/
def draw_iter (fb : Framebuffer) (ps : List GrayPixel) : Except DrawError Framebuffer :=
  .ok (drawAll fb ps)

/-- `Ssd1322Display::clear`: `self.framebuffer.fill(0)`. -/
def clear (_fb : Framebuffer) : Framebuffer := fun _ => 0

/-- One SPI transfer issued by the driver: a command byte (`dc` low) or a run
of data bytes (`dc` high), each framed by chip-select. -/
inductive BusWrite
  | cmd (b : Nat)
  | data (bs : List Nat)
  deriving DecidableEq

/-- `(self.framebuffer[idx] << 4) | self.framebuffer[idx + 1]` on `u8`. -/
def packByte (a b : Nat) : Nat := ((a * 16) % 256) ||| (b % 256)

/-- One iteration of the chunk loop in `flush`: the 128 packed bytes of the
256 framebuffer cells starting at `chunkStart`. -/
def chunkData (fb : Framebuffer) (chunkStart : Nat) : List Nat :=
  (List.range 128).map fun k =>
    packByte (fb (chunkStart + 2 * k)) (fb (chunkStart + 2 * k + 1))

/-- `Ssd1322Display::flush`: the exact sequence of SPI writes — column
window, row window, write-RAM, then the 64 packed 128-byte chunks. -/
def flushOps (fb : Framebuffer) : List BusWrite :=
  [.cmd CMD_SET_COLUMN_ADDR, .data [MIN_SEG, MAX_SEG],
    .cmd CMD_SET_ROW_ADDR, .data [0, 63],
    .cmd CMD_WRITE_RAM]
  ++ (List.range 64).map fun c => .data (chunkData fb (256 * c))

def payloadOf : BusWrite → List Nat
  | .cmd _ => []
  | .data bs => bs

/-- The data bytes carried by a sequence of SPI writes. -/
def dataPayload (ops : List BusWrite) : List Nat :=
  (ops.map payloadOf).flatten

/-- The packing rule in the spec's words: scan rows top to bottom, within a
row pack two horizontally adjacent pixels per byte, the even-x pixel in the
high nibble and the odd-x pixel in the low nibble. -/
def specPackedRow (fb : Framebuffer) (y : Nat) : List Nat :=
  (List.range 128).map fun xh =>
    16 * fb (2 * xh + y * DISPLAY_WIDTH) + fb ((2 * xh + 1) + y * DISPLAY_WIDTH)

def specPackedBytes (fb : Framebuffer) : List Nat :=
  ((List.range 64).map (specPackedRow fb)).flatten

/-- The spec-side unpacking: the high nibble of a transmitted byte. -/
def unpackHigh (v : Nat) : Nat := v >>> 4

/-- The spec-side unpacking: the low nibble of a transmitted byte. -/
def unpackLow (v : Nat) : Nat := v &&& 0xF

theorem packByte_eq_of_lt : ∀ a < 16, ∀ b < 16, packByte a b = 16 * a + b := by
  decide

theorem packByte_roundtrip : ∀ a < 16, ∀ b < 16,
    unpackHigh (packByte a b) = a ∧ unpackLow (packByte a b) = b := by
  decide

/-- Framebuffer used by concrete witnesses: cell `i` holds `i % 16`. -/
def witnessFb : Framebuffer := fun i => i % 16

/-! ### Claim theorems: display transport -/

/-- C4: `flush` first issues the column window command `0x15` with parameters
`0x1C, 0x5B`, the row window command `0x75` with parameters `0, 63`, then the
write-RAM command `0x5C`; the streamed data bytes are exactly the framebuffer
packed two horizontally adjacent pixels per byte, even-x pixel in the high
nibble, odd-x pixel in the low nibble, in row-major scan order. -/
theorem C4_flush_stream (fb : Framebuffer)
    (hwf : ∀ i, i < DISPLAY_BUFFER_SIZE → fb i < 16) :
    (flushOps fb).take 5 =
      [.cmd 0x15, .data [0x1C, 0x5B], .cmd 0x75, .data [0, 63], .cmd 0x5C] ∧
    dataPayload ((flushOps fb).drop 5) = specPackedBytes fb := by
  constructor
  · rfl
  · show dataPayload ((List.range 64).map fun c => .data (chunkData fb (256 * c))) =
      specPackedBytes fb
    unfold dataPayload specPackedBytes
    rw [List.map_map]
    congr 1
    apply List.map_congr_left
    intro c hc
    rw [List.mem_range] at hc
    show chunkData fb (256 * c) = specPackedRow fb c
    unfold chunkData specPackedRow
    apply List.map_congr_left
    intro k hk
    rw [List.mem_range] at hk
    have h1 : fb (256 * c + 2 * k) < 16 := by
      apply hwf
      show _ < DISPLAY_WIDTH * DISPLAY_HEIGHT
      unfold DISPLAY_WIDTH DISPLAY_HEIGHT
      omega
    have h2 : fb (256 * c + 2 * k + 1) < 16 := by
      apply hwf
      show _ < DISPLAY_WIDTH * DISPLAY_HEIGHT
      unfold DISPLAY_WIDTH DISPLAY_HEIGHT
      omega
    rw [packByte_eq_of_lt _ h1 _ h2]
    rw [show 256 * c + 2 * k = 2 * k + c * DISPLAY_WIDTH from by
      unfold DISPLAY_WIDTH; omega]
    rw [show 2 * k + c * DISPLAY_WIDTH + 1 = (2 * k + 1) + c * DISPLAY_WIDTH from by
      omega]

/-- C4 witness: the flush stream property at the framebuffer whose cell `i`
holds `i % 16`. -/
theorem C4_flush_stream_witness :
    (∀ i, i < DISPLAY_BUFFER_SIZE → witnessFb i < 16) ∧
    ((flushOps witnessFb).take 5 =
      [.cmd 0x15, .data [0x1C, 0x5B], .cmd 0x75, .data [0, 63], .cmd 0x5C] ∧
    dataPayload ((flushOps witnessFb).drop 5) = specPackedBytes witnessFb) :=
  ⟨fun i _ => Nat.mod_lt i (by decide),
    C4_flush_stream witnessFb (fun i _ => Nat.mod_lt i (by decide))⟩

theorem drawError_false (e : DrawError) : False := nomatch e

/-- C5: drawing one pixel at `(x, y)` writes the intensity into the
framebuffer cell at `(x, y)` iff `0 ≤ x < 256` and `0 ≤ y < 64`; for any
out-of-range coordinate (including negative ones) every cell is left
unchanged; and `draw_iter` cannot signal an error (its error type is
uninhabited). -/
theorem C5_draw_pixel_bounds (x y : Int) (c : Gray4) (fb : Framebuffer) :
    draw_iter fb [⟨x, y, c⟩] = .ok (drawAll fb [⟨x, y, c⟩]) ∧
    (∀ _e0 : DrawError, False) ∧
    ∀ i : Nat, drawAll fb [⟨x, y, c⟩] i =
      (if (0 ≤ x ∧ x < 256 ∧ 0 ≤ y ∧ y < 64) ∧ (i : Int) = x + y * 256
        then c.luma.val else fb i) := by
  refine ⟨rfl, fun e => drawError_false e, fun i => ?_⟩
  show drawPixelStep fb ⟨x, y, c⟩ i = _
  unfold drawPixelStep
  by_cases hb : 0 ≤ x ∧ x < (DISPLAY_WIDTH : Int) ∧ 0 ≤ y ∧ y < (DISPLAY_HEIGHT : Int)
  · rw [if_pos hb]
    obtain ⟨hx0, hx1, hy0, hy1⟩ := hb
    rw [show (DISPLAY_WIDTH : Int) = 256 from rfl] at hx1
    rw [show (DISPLAY_HEIGHT : Int) = 64 from rfl] at hy1
    unfold setPixelRaw
    by_cases hi : (i : Int) = x + y * 256
    · rw [if_pos, if_pos]
      · exact ⟨⟨hx0, hx1, hy0, hy1⟩, hi⟩
      · show i = x.toNat + y.toNat * DISPLAY_WIDTH
        unfold DISPLAY_WIDTH
        omega
    · rw [if_neg, if_neg]
      · intro h
        exact hi h.2
      · show ¬ i = x.toNat + y.toNat * DISPLAY_WIDTH
        unfold DISPLAY_WIDTH
        omega
  · rw [if_neg hb, if_neg]
    intro h
    apply hb
    refine ⟨h.1.1, ?_, h.1.2.2.1, ?_⟩
    · rw [show (DISPLAY_WIDTH : Int) = 256 from rfl]
      exact h.1.2.1
    · rw [show (DISPLAY_HEIGHT : Int) = 64 from rfl]
      exact h.1.2.2.2

/-- C9: for intensities `a, b ∈ [0, 15]`, packing as `(a << 4) | b` and then
taking the high and low nibble recovers exactly `a` and `b`. -/
theorem C9_pack_roundtrip (a b : Nat) (ha : a < 16) (hb : b < 16) :
    unpackHigh (packByte a b) = a ∧ unpackLow (packByte a b) = b :=
  packByte_roundtrip a ha b hb

/-- C9 witness: the round-trip at `a = 9`, `b = 4`. -/
theorem C9_pack_roundtrip_witness :
    (9 : Nat) < 16 ∧ (4 : Nat) < 16 ∧
    (unpackHigh (packByte 9 4) = 9 ∧ unpackLow (packByte 9 4) = 4) :=
  ⟨by decide, by decide, C9_pack_roundtrip 9 4 (by decide) (by decide)⟩

/-- C10: `clear` writes 0 into every cell; `draw_iter` only writes the luma
of a `Gray4` color, which is below 16, so it preserves the all-cells-≤-15
invariant; and under that invariant the `(cell << 4) | next_cell` packing of
`flush` keeps each pixel in its own nibble. -/
theorem C10_nibble_invariant (fbOld fb : Framebuffer) (ps : List GrayPixel)
    (g : Gray4) (hwf : ∀ k, fb k ≤ 15) :
    (∀ i, clear fbOld i = 0) ∧
    g.luma.val ≤ 15 ∧
    (∀ i, drawAll fb ps i ≤ 15) ∧
    (∀ j, unpackHigh (packByte (fb (2 * j)) (fb (2 * j + 1))) = fb (2 * j) ∧
      unpackLow (packByte (fb (2 * j)) (fb (2 * j + 1))) = fb (2 * j + 1)) := by
  refine ⟨fun i => rfl, Nat.lt_succ_iff.mp g.luma.isLt, ?_, fun j => ?_⟩
  · suffices h : ∀ (ps : List GrayPixel) (fb : Framebuffer),
        (∀ k, fb k ≤ 15) → ∀ i, drawAll fb ps i ≤ 15 from h ps fb hwf
    intro ps
    induction ps with
    | nil => intro fb h i; exact h i
    | cons p rest ih =>
      intro fb h i
      apply ih
      intro k
      unfold drawPixelStep
      by_cases hb : 0 ≤ p.x ∧ p.x < (DISPLAY_WIDTH : Int) ∧ 0 ≤ p.y ∧
          p.y < (DISPLAY_HEIGHT : Int)
      · rw [if_pos hb]
        unfold setPixelRaw
        by_cases hk : k = p.x.toNat + p.y.toNat * DISPLAY_WIDTH
        · rw [if_pos hk]
          exact Nat.lt_succ_iff.mp p.color.luma.isLt
        · rw [if_neg hk]
          exact h k
      · rw [if_neg hb]
        exact h k
  · exact packByte_roundtrip _ (Nat.lt_succ_iff.mpr (hwf _)) _
      (Nat.lt_succ_iff.mpr (hwf _))

/-- C10 witness: the invariant at the framebuffer whose cell `i` holds
`i % 16`, one drawn pixel and one color. -/
theorem C10_nibble_invariant_witness :
    (∀ k, witnessFb k ≤ 15) ∧
    ((∀ i, clear witnessFb i = 0) ∧
    (⟨⟨7, by decide⟩⟩ : Gray4).luma.val ≤ 15 ∧
    (∀ i, drawAll witnessFb [⟨3, 5, ⟨⟨9, by decide⟩⟩⟩] i ≤ 15) ∧
    (∀ j, unpackHigh (packByte (witnessFb (2 * j)) (witnessFb (2 * j + 1))) =
        witnessFb (2 * j) ∧
      unpackLow (packByte (witnessFb (2 * j)) (witnessFb (2 * j + 1))) =
        witnessFb (2 * j + 1))) :=
  ⟨fun k => Nat.lt_succ_iff.mp (Nat.mod_lt k (by decide)),
    C10_nibble_invariant witnessFb witnessFb [⟨3, 5, ⟨⟨9, by decide⟩⟩⟩]
      ⟨⟨7, by decide⟩⟩ (fun k => Nat.lt_succ_iff.mp (Nat.mod_lt k (by decide)))⟩

/-! ## Pixel primitives and UI renderer (`src/drivers/display/display_write.rs`)

`draw_pixel`, the `DISPLAY_*` shade constants and the `font16` metrics are
re-exported by `drivers/display/mod.rs` but their defining code is not among
the sources, so they are modelled from the spec (§3, §4.3). -/

/-- Modelled from the spec: the shade constants re-exported from `ssd1322.rs`
whose defining code is missing from the sources.  The spec fixes shades as
4-bit intensities 0–15: black = 0, white = full brightness, and three
intermediate tones ("barely visible", dim, mid-level). -/
def DISPLAY_BLACK : Nat := 0x0

def DISPLAY_WHITE : Nat := 0xF

def DISPLAY_MID_SHADE : Nat := 0x7

def DISPLAY_LOW_SHADE : Nat := 0x4

def DISPLAY_VLOW_SHADE : Nat := 0x1

/-- Modelled from the spec: `font16.rs` (fixed bitmap font) is missing from
the sources; its character cell is modelled as the usual 8×16 cell of a
16-pixel-high font. -/
def FONT_WIDTH : Nat := 8

/-- Modelled from the spec: height of the `font16.rs` character cell. -/
def FONT_HEIGHT : Nat := 16

/-- Modelled from the spec: `drawPixel(x, y, intensity)` writes the intensity
into the framebuffer at `(x, y)` iff `0 ≤ x < W ∧ 0 ≤ y < H` and silently
ignores out-of-range calls (§4.3); the `draw_pixel` method itself is missing
from the sources (coordinates are `usize`, hence `Nat`). -/
def draw_pixel (fb : Framebuffer) (x y : Nat) (shade : Nat) : Framebuffer :=
  if x < DISPLAY_WIDTH ∧ y < DISPLAY_HEIGHT then setPixelRaw fb x y shade else fb

/-- `for i in a..b { ... }` threading the framebuffer. -/
def foldRange (a b : Nat) (f : Framebuffer → Nat → Framebuffer)
    (fb : Framebuffer) : Framebuffer :=
  (List.range' a (b - a)).foldl f fb

/-- Draw a list of points in order with one shade. -/
def drawPixels (fb : Framebuffer) (ps : List (Nat × Nat)) (shade : Nat) :
    Framebuffer :=
  ps.foldl (fun fb p => draw_pixel fb p.1 p.2 shade) fb

/-- `Ssd1322Display::draw_box_outline` from `display_write.rs`. -/
def draw_box_outline (fb : Framebuffer) (x0 y0 width height : Nat) : Framebuffer :=
  let fb1 := foldRange x0 (x0 + width) (fun fb x =>
    draw_pixel (draw_pixel fb x y0 DISPLAY_WHITE) x (y0 + height - 1) DISPLAY_WHITE) fb
  foldRange y0 (y0 + height) (fun fb y =>
    draw_pixel (draw_pixel fb x0 y DISPLAY_WHITE) (x0 + width - 1) y DISPLAY_WHITE) fb1

/-! ### Liveness gauges (`write_timeout`, `write_bms_timeout`)

The Rust code computes the fill ratio in `f32`
(`time_since as f32 / TIMEOUT as f32`, `(30.0 * ratio) as usize`); the
embedding models that arithmetic exactly over `ℚ` (in the branches the claims
exercise — ratio 0 and ratio 1 — `f32` arithmetic is exact). -/

/-- `let dead = time_since >= VC_TIMEOUT;` with `VC_TIMEOUT = 300`. -/
def vcDead (t : Nat) : Bool := decide (300 ≤ t)

/-- `let ratio = if dead { 1.0 } else { time_since as f32 / VC_TIMEOUT as f32 }`. -/
def vcRatio (t : Nat) : ℚ := if vcDead t then 1 else (t : ℚ) / 300

/-- `(30.0 * ratio) as usize` (truncating cast of a nonnegative value). -/
def vcFillWidth (t : Nat) : Nat := (Int.floor ((30 : ℚ) * vcRatio t)).toNat

def vcX : Nat := 5 * FONT_WIDTH
def vcY : Nat := 3 * FONT_HEIGHT + 4

/-- The fill-bar loop of `write_timeout`. -/
def vcFillBar (fb : Framebuffer) (t : Nat) : Framebuffer :=
  foldRange (vcX + 1) (vcX + vcFillWidth t) (fun fb i =>
    foldRange (vcY + 1) (vcY + 9) (fun fb j =>
      draw_pixel fb i j
        (if vcDead t then DISPLAY_VLOW_SHADE else DISPLAY_MID_SHADE)) fb) fb

/-- The diagonal-cross loop of `write_timeout` (only when dead). -/
def vcCross (fb : Framebuffer) (t : Nat) : Framebuffer :=
  if vcDead t then
    foldRange 0 30 (fun fb i =>
      draw_pixel
        (draw_pixel fb (vcX + i) (vcY + i * 10 / 30) DISPLAY_MID_SHADE)
        (vcX + i) (vcY + (29 - i) * 10 / 30) DISPLAY_MID_SHADE) fb
  else fb

/-- The fixed "VC" pixel-art label of `write_timeout`. -/
def vcLabel (fb : Framebuffer) : Framebuffer :=
  drawPixels fb
    [(vcX + 13, vcY + 3), (vcX + 13, vcY + 4), (vcX + 13, vcY + 5),
      (vcX + 14, vcY + 6), (vcX + 15, vcY + 5), (vcX + 15, vcY + 3),
      (vcX + 15, vcY + 4),
      (vcX + 18, vcY + 4), (vcX + 18, vcY + 5), (vcX + 19, vcY + 3),
      (vcX + 19, vcY + 6), (vcX + 20, vcY + 3), (vcX + 20, vcY + 6)]
    DISPLAY_WHITE

/-- `Ssd1322Display::write_timeout`. -/
def write_timeout (fb : Framebuffer) (t : Nat) : Framebuffer :=
  vcLabel (draw_box_outline (vcCross (vcFillBar fb t) t) vcX vcY 30 10)

/-- `let dead = time_since >= TIMEOUT;` with `TIMEOUT = 1000`. -/
def bmsDead (t : Nat) : Bool := decide (1000 ≤ t)

def bmsRatio (t : Nat) : ℚ := if bmsDead t then 1 else (t : ℚ) / 1000

def bmsFillWidth (t : Nat) : Nat := (Int.floor ((30 : ℚ) * bmsRatio t)).toNat

def bmsX : Nat := 8 * FONT_WIDTH
def bmsY : Nat := 3 * FONT_HEIGHT + 4

/-- The fill-bar loop of `write_bms_timeout`. -/
def bmsFillBar (fb : Framebuffer) (t : Nat) : Framebuffer :=
  foldRange (bmsX + 1) (bmsX + bmsFillWidth t) (fun fb i =>
    foldRange (bmsY + 1) (bmsY + 9) (fun fb j =>
      draw_pixel fb i j
        (if bmsDead t then DISPLAY_VLOW_SHADE else DISPLAY_MID_SHADE)) fb) fb

/-- The diagonal-cross loop of `write_bms_timeout` (only when dead). -/
def bmsCross (fb : Framebuffer) (t : Nat) : Framebuffer :=
  if bmsDead t then
    foldRange 0 30 (fun fb i =>
      draw_pixel
        (draw_pixel fb (bmsX + i) (bmsY + i * 10 / 30) DISPLAY_MID_SHADE)
        (bmsX + i) (bmsY + (29 - i) * 10 / 30) DISPLAY_MID_SHADE) fb
  else fb

/-- The fixed "BMS" pixel-art label of `write_bms_timeout`. -/
def bmsLabel (fb : Framebuffer) : Framebuffer :=
  drawPixels fb
    [(bmsX + 10, bmsY + 2), (bmsX + 10, bmsY + 3), (bmsX + 10, bmsY + 4),
      (bmsX + 10, bmsY + 5), (bmsX + 10, bmsY + 6), (bmsX + 11, bmsY + 2),
      (bmsX + 11, bmsY + 4), (bmsX + 11, bmsY + 6), (bmsX + 12, bmsY + 3),
      (bmsX + 12, bmsY + 5),
      (bmsX + 14, bmsY + 2), (bmsX + 14, bmsY + 3), (bmsX + 14, bmsY + 4),
      (bmsX + 14, bmsY + 5), (bmsX + 14, bmsY + 6), (bmsX + 15, bmsY + 3),
      (bmsX + 16, bmsY + 2), (bmsX + 16, bmsY + 3), (bmsX + 16, bmsY + 4),
      (bmsX + 16, bmsY + 5), (bmsX + 16, bmsY + 6),
      (bmsX + 18, bmsY + 2), (bmsX + 19, bmsY + 2), (bmsX + 18, bmsY + 3),
      (bmsX + 18, bmsY + 4), (bmsX + 19, bmsY + 4), (bmsX + 19, bmsY + 5),
      (bmsX + 18, bmsY + 6), (bmsX + 19, bmsY + 6)]
    DISPLAY_WHITE

/-- `Ssd1322Display::write_bms_timeout`. -/
def write_bms_timeout (fb : Framebuffer) (t : Nat) : Framebuffer :=
  bmsLabel (draw_box_outline (bmsCross (bmsFillBar fb t) t) bmsX bmsY 30 10)

/-! ### Turn signals -/

/-- `Ssd1322Display::write_left_signal`: arrow body then arrow head, at the
bright shade when `on`, the dim shade otherwise. -/
def write_left_signal (fb : Framebuffer) (isOn : Bool) : Framebuffer :=
  let shade := if isOn then DISPLAY_WHITE else DISPLAY_LOW_SHADE
  let fb1 := foldRange 5 9 (fun fb i =>
    foldRange 4 9 (fun fb j => draw_pixel fb i j shade) fb) fb
  foldRange 0 5 (fun fb i =>
    foldRange (6 - i) (6 + i + 1) (fun fb j => draw_pixel fb i j shade) fb) fb1

/-- `Ssd1322Display::write_right_signal`. -/
def write_right_signal (fb : Framebuffer) (isOn : Bool) : Framebuffer :=
  let shade := if isOn then DISPLAY_WHITE else DISPLAY_LOW_SHADE
  let fb1 := foldRange 5 9 (fun fb i =>
    foldRange 4 9 (fun fb j =>
      draw_pixel fb (DISPLAY_WIDTH - 4 - i) j shade) fb) fb
  foldRange 0 5 (fun fb i =>
    foldRange (6 - i) (6 + i + 1) (fun fb j =>
      draw_pixel fb (DISPLAY_WIDTH - 4 - i) j shade) fb) fb1

/-- Wrapping `u32` subtraction `a - b` (for `a, b < 2^32`). -/
def u32sub (a b : Nat) : Nat := (a + 2 ^ 32 - b) % 2 ^ 32

/-- `Ssd1322Display::write_turn_signal_state`: toggle the blink phases when
more than 500 ms have elapsed since `last_blink`, then draw both signals —
with the hard-coded argument `false` (a `TODO` in the source). -/
def write_turn_signal_state (fb : Framebuffer) (leftState rightState : Bool)
    (lastBlink t : Nat) : Framebuffer × Bool × Bool × Nat :=
  let st := if 500 < u32sub t lastBlink then (!leftState, !rightState, t)
    else (leftState, rightState, lastBlink)
  (write_right_signal (write_left_signal fb false) false, st)

/-! ### Screen state machine (`src/tasks/display.rs`) -/

/-- The screen contents a cycle of `display_task` renders. -/
inductive ScreenRender
  | main
  | debugScreen
  deriving DecidableEq

/-- The `match state.current_screen` of `display_task`: screen 0 renders the
main screen, screen 1 the debug screen, and any other index renders nothing
and resets `current_screen` to 0.  Returns (rendered contents, next screen
index). -/
def screenCycle (screen : Nat) : Option ScreenRender × Nat :=
  match screen with
  | 0 => (some .main, 0)
  | 1 => (some .debugScreen, 1)
  | _ => (none, 0)

/-! ### Gauge lemmas -/

theorem vcDead_of_le {t : Nat} (h : 300 ≤ t) : vcDead t = true :=
  decide_eq_true h

theorem bmsDead_of_le {t : Nat} (h : 1000 ≤ t) : bmsDead t = true :=
  decide_eq_true h

theorem vcRatio_eq_clamp (t : Nat) :
    vcRatio t = max 0 (min 1 ((t : ℚ) / 300)) := by
  unfold vcRatio
  by_cases h : 300 ≤ t
  · rw [if_pos (vcDead_of_le h)]
    have h1 : (1 : ℚ) ≤ (t : ℚ) / 300 := by
      rw [le_div_iff₀ (by norm_num : (0 : ℚ) < 300), one_mul]
      exact_mod_cast h
    rw [min_eq_left h1, max_eq_right (by norm_num : (0 : ℚ) ≤ 1)]
  · rw [if_neg (by simpa [vcDead] using h)]
    have h0 : (0 : ℚ) ≤ (t : ℚ) / 300 := by positivity
    have h1 : (t : ℚ) / 300 ≤ 1 := by
      rw [div_le_one (by norm_num : (0 : ℚ) < 300)]
      exact_mod_cast Nat.le_of_lt (Nat.lt_of_not_le h)
    rw [min_eq_right h1, max_eq_right h0]

theorem bmsRatio_eq_clamp (t : Nat) :
    bmsRatio t = max 0 (min 1 ((t : ℚ) / 1000)) := by
  unfold bmsRatio
  by_cases h : 1000 ≤ t
  · rw [if_pos (bmsDead_of_le h)]
    have h1 : (1 : ℚ) ≤ (t : ℚ) / 1000 := by
      rw [le_div_iff₀ (by norm_num : (0 : ℚ) < 1000), one_mul]
      exact_mod_cast h
    rw [min_eq_left h1, max_eq_right (by norm_num : (0 : ℚ) ≤ 1)]
  · rw [if_neg (by simpa [bmsDead] using h)]
    have h0 : (0 : ℚ) ≤ (t : ℚ) / 1000 := by positivity
    have h1 : (t : ℚ) / 1000 ≤ 1 := by
      rw [div_le_one (by norm_num : (0 : ℚ) < 1000)]
      exact_mod_cast Nat.le_of_lt (Nat.lt_of_not_le h)
    rw [min_eq_right h1, max_eq_right h0]

theorem vcFillBar_dead (fb : Framebuffer) {t : Nat} (h : 300 ≤ t) :
    vcFillBar fb t = vcFillBar fb 300 := by
  unfold vcFillBar vcFillWidth vcRatio
  rw [vcDead_of_le h, vcDead_of_le (le_refl 300)]
  simp

theorem vcCross_dead (fb : Framebuffer) {t : Nat} (h : 300 ≤ t) :
    vcCross fb t = vcCross fb 300 := by
  unfold vcCross
  rw [vcDead_of_le h, vcDead_of_le (le_refl 300)]

theorem write_timeout_dead (fb : Framebuffer) {t : Nat} (h : 300 ≤ t) :
    write_timeout fb t = write_timeout fb 300 := by
  unfold write_timeout
  rw [vcFillBar_dead fb h, vcCross_dead (vcFillBar fb 300) h]

theorem bmsFillBar_dead (fb : Framebuffer) {t : Nat} (h : 1000 ≤ t) :
    bmsFillBar fb t = bmsFillBar fb 1000 := by
  unfold bmsFillBar bmsFillWidth bmsRatio
  rw [bmsDead_of_le h, bmsDead_of_le (le_refl 1000)]
  simp

theorem bmsCross_dead (fb : Framebuffer) {t : Nat} (h : 1000 ≤ t) :
    bmsCross fb t = bmsCross fb 1000 := by
  unfold bmsCross
  rw [bmsDead_of_le h, bmsDead_of_le (le_refl 1000)]

theorem write_bms_timeout_dead (fb : Framebuffer) {t : Nat} (h : 1000 ≤ t) :
    write_bms_timeout fb t = write_bms_timeout fb 1000 := by
  unfold write_bms_timeout
  rw [bmsFillBar_dead fb h, bmsCross_dead (bmsFillBar fb 1000) h]

theorem vcFillWidth_zero : vcFillWidth 0 = 0 := by
  unfold vcFillWidth vcRatio vcDead
  norm_num

theorem bmsFillWidth_zero : bmsFillWidth 0 = 0 := by
  unfold bmsFillWidth bmsRatio bmsDead
  norm_num

theorem vcFillBar_zero (fb : Framebuffer) : vcFillBar fb 0 = fb := by
  unfold vcFillBar foldRange
  rw [show vcX + vcFillWidth 0 - (vcX + 1) = 0 from by rw [vcFillWidth_zero]; omega]
  rfl

theorem bmsFillBar_zero (fb : Framebuffer) : bmsFillBar fb 0 = fb := by
  unfold bmsFillBar foldRange
  rw [show bmsX + bmsFillWidth 0 - (bmsX + 1) = 0 from by rw [bmsFillWidth_zero]; omega]
  rfl

/-! ### Claim theorems: UI renderer and screen machine -/

/-- C6: any screen index other than Main (0) and Debug (1) renders nothing on
this cycle, resets the index to Main, and the next cycle renders the Main
screen contents; the fallback arm is total, so no error arises. -/
theorem C6_unknown_screen_resets (s : Nat) (h0 : s ≠ 0) (h1 : s ≠ 1) :
    (screenCycle s).1 = none ∧ (screenCycle s).2 = 0 ∧
    (screenCycle (screenCycle s).2).1 = some .main := by
  match s with
  | 0 => exact absurd rfl h0
  | 1 => exact absurd rfl h1
  | n + 2 => exact ⟨rfl, rfl, rfl⟩

/-- C6 witness: the unknown index 99 falls back to Main. -/
theorem C6_unknown_screen_resets_witness :
    (99 : Nat) ≠ 0 ∧ (99 : Nat) ≠ 1 ∧
    ((screenCycle 99).1 = none ∧ (screenCycle 99).2 = 0 ∧
      (screenCycle (screenCycle 99).2).1 = some .main) :=
  ⟨by decide, by decide, C6_unknown_screen_resets 99 (by decide) (by decide)⟩

/-- C7: for both liveness gauges the fill ratio equals
`clamp(elapsed / timeout, 0, 1)` (timeouts 300 and 1000); at `elapsed = 0`
the fill width is 0 and the fill loop draws nothing; and for every
`elapsed ≥ timeout` the rendering is the single fixed dead picture —
identical to the rendering at exactly `timeout` — however far `elapsed`
exceeds the timeout. -/
theorem C7_liveness_gauges (fb : Framebuffer) (t : Nat) :
    vcRatio t = max 0 (min 1 ((t : ℚ) / 300)) ∧
    bmsRatio t = max 0 (min 1 ((t : ℚ) / 1000)) ∧
    vcFillWidth 0 = 0 ∧
    vcFillBar fb 0 = fb ∧
    bmsFillWidth 0 = 0 ∧
    bmsFillBar fb 0 = fb ∧
    (300 ≤ t → write_timeout fb t = write_timeout fb 300) ∧
    (1000 ≤ t → write_bms_timeout fb t = write_bms_timeout fb 1000) :=
  ⟨vcRatio_eq_clamp t, bmsRatio_eq_clamp t, vcFillWidth_zero, vcFillBar_zero fb,
    bmsFillWidth_zero, bmsFillBar_zero fb,
    fun h => write_timeout_dead fb h, fun h => write_bms_timeout_dead fb h⟩

/-- C7 witness: the gauge properties at `elapsed = 2000`, beyond both
timeouts. -/
theorem C7_liveness_gauges_witness :
    vcRatio 2000 = max 0 (min 1 ((2000 : ℚ) / 300)) ∧
    vcFillBar witnessFb 0 = witnessFb ∧
    (300 ≤ 2000 ∧ write_timeout witnessFb 2000 = write_timeout witnessFb 300) ∧
    (1000 ≤ 2000 ∧
      write_bms_timeout witnessFb 2000 = write_bms_timeout witnessFb 1000) :=
  ⟨(C7_liveness_gauges witnessFb 2000).1,
    (C7_liveness_gauges witnessFb 2000).2.2.2.1,
    ⟨by decide, (C7_liveness_gauges witnessFb 2000).2.2.2.2.2.2.1 (by decide)⟩,
    ⟨by decide, (C7_liveness_gauges witnessFb 2000).2.2.2.2.2.2.2 (by decide)⟩⟩

set_option maxRecDepth 8192 in
/-- C8 counterexample: at time 100 with both blink phases `true` (no toggle
occurs, since only 100 ms elapsed), the rendered frame is identical to the
one rendered with both phases `false`, and the arrow-body pixel `(5, 4)`
holds the dim shade even though the phase is `true` — the drawn intensity
does not depend on the blink phase. -/
theorem C8_counterexample :
    (write_turn_signal_state witnessFb true true 0 100).2.1 = true ∧
    (write_turn_signal_state witnessFb true true 0 100).1 =
      (write_turn_signal_state witnessFb false false 0 100).1 ∧
    (write_turn_signal_state witnessFb true true 0 100).1 (5 + 4 * DISPLAY_WIDTH) =
      DISPLAY_LOW_SHADE := by
  refine ⟨by decide, rfl, by decide⟩

/-- C8 (amended): `write_turn_signal_state` draws both arrows with the
hard-coded argument `false` — at the dim intensity, independent of the blink
phase (wiring the real turn-signal state is a `TODO` in the source) — while
the blink phase still toggles exactly when more than 500 ms have elapsed
since the last toggle, as measured by the externally supplied time, and is
left unchanged by any call made within the 500 ms period, however frequent. -/
theorem C8_turn_signal_blink (fb : Framebuffer) (l r : Bool) (last t : Nat) :
    (write_turn_signal_state fb l r last t).1 =
      write_right_signal (write_left_signal fb false) false ∧
    (u32sub t last ≤ 500 →
      (write_turn_signal_state fb l r last t).2 = (l, r, last)) ∧
    (500 < u32sub t last →
      (write_turn_signal_state fb l r last t).2 = (!l, !r, t)) := by
  refine ⟨rfl, fun h => ?_, fun h => ?_⟩
  · show (if 500 < u32sub t last then (!l, !r, t) else (l, r, last)) = (l, r, last)
    rw [if_neg (by omega)]
  · show (if 500 < u32sub t last then (!l, !r, t) else (l, r, last)) = (!l, !r, t)
    rw [if_pos h]

/-- C8 witness: a call 600 ms after the last toggle flips both phases and
stores the new time; the frame is the fixed both-off rendering. -/
theorem C8_turn_signal_blink_witness :
    (write_turn_signal_state witnessFb false false 0 600).1 =
      write_right_signal (write_left_signal witnessFb false) false ∧
    500 < u32sub 600 0 ∧
    (write_turn_signal_state witnessFb false false 0 600).2 =
      (!false, !false, 600) :=
  ⟨(C8_turn_signal_blink witnessFb false false 0 600).1, by decide,
    (C8_turn_signal_blink witnessFb false false 0 600).2.2 (by decide)⟩

end SolarVC
